import Mathlib

/-!
Shallow embedding of the system-info widget (src/system-info/Src/main.rs).

The program polls CPU, RAM and GPU information and renders it into three
display fields of an AppWindow.  We embed:

* `get_gpu_info`  — the one-shot adapter enumeration and reduction;
* `update_system_info` — the per-refresh formatting of CPU and RAM data;
* the sampler-loop tick body and the manual-trigger closure, both of which
  resolve a weak UI handle, lock the shared `System` mutex and call
  `update_system_info`;
* a small interleaving semantics for the two concurrent callers of the
  mutex-guarded refresh.

Machine floats (f32) are modelled by exact rationals together with an
`Option` marker for the non-finite outcome of dividing by a zero
denominator (IEEE 0.0 / 0.0 = NaN).  Machine integers (u64/u32) are
modelled by `Nat`; none of the divisions involved can overflow.
-/

namespace SystemInfo

/-- Character-level embedding of Rust `str::trim_end`: removes the maximal
run of trailing whitespace characters from a list of characters. -/
def dropTrailingWS : List Char → List Char
  | [] => []
  | c :: cs =>
    let rest := dropTrailingWS cs
    if rest.isEmpty && c.isWhitespace then [] else c :: rest

/-- Embedding of Rust `str::trim_end` on strings (all trailing characters in
the strings this program builds are ASCII, where Rust and Lean agree on
what whitespace is). -/
def trim_end (s : String) : String := ⟨dropTrailingWS s.data⟩

/-- Descriptor of one graphics adapter as the program reads it from wgpu:
`adapter.get_info()` gives `name`, `backend` (its Debug label, modelled as
the resulting string) and `device`; `adapter.limits()` gives
`max_storage_buffer_binding_size` in bytes. -/
structure AdapterInfo where
  name : String
  backend : String
  device : Nat
  max_storage_buffer_binding_size : Nat
deriving DecidableEq, Repr

/-- Body of the `for adapter in adapters` loop of `get_gpu_info`: iterates
the adapters carrying the `seen_devices` set (modelled as a list of device
identities) and the accumulated `gpu_info` string.  On the first adapter
whose device is not in the set the code pushes the three formatted lines
and breaks, so that branch makes no recursive call. -/
def gpuLoop : List AdapterInfo → List Nat → String → String
  | [], _, acc => acc
  | a :: rest, seen, acc =>
    if a.device ∈ seen then
      gpuLoop rest seen acc
    else
      acc ++ ("GPU: " ++ a.name ++ " (" ++ a.backend ++ ")\n")
          ++ ("VRAM: " ++ toString (a.max_storage_buffer_binding_size / (1024 * 1024)) ++ " MB\n")
          ++ "Clock Speed: N/A (requires vendor-specific APIs)\n"

/-- Embedding of `get_gpu_info`: the enumerated adapter sequence is the
argument; an empty sequence yields the literal fallback string, otherwise
the loop result is returned with trailing whitespace trimmed. -/
def get_gpu_info (adapters : List AdapterInfo) : String :=
  if adapters.isEmpty then "No GPU adapters found"
  else trim_end (gpuLoop adapters [] "")

/-- Specification-side reduction: the first adapter of the sequence whose
device identity has not appeared earlier in the sequence (the `seen`
argument accumulates the identities already examined). -/
def firstNovel : List AdapterInfo → List Nat → Option AdapterInfo
  | [], _ => none
  | a :: rest, seen =>
    if a.device ∈ seen then firstNovel rest (a.device :: seen) else some a

/-- Specification-side rendering of the selected adapter: the three output
lines with the trailing newline already trimmed. -/
def adapterSummary (a : AdapterInfo) : String :=
  ("GPU: " ++ a.name ++ " (" ++ a.backend ++ ")\n")
    ++ ("VRAM: " ++ toString (a.max_storage_buffer_binding_size / (1024 * 1024)) ++ " MB\n")
    ++ "Clock Speed: N/A (requires vendor-specific APIs)"

theorem string_data_append (s t : String) : (s ++ t).data = s.data ++ t.data := by
  cases s; cases t; rfl

theorem string_eq_of_data_eq (s t : String) (h : s.data = t.data) : s = t := by
  cases s; cases t; exact congrArg String.mk (by simpa using h)

theorem dropTrailingWS_append_nonWS (xs : List Char) (c : Char)
    (hc : c.isWhitespace = false) : dropTrailingWS (xs ++ [c]) = xs ++ [c] := by
  induction xs with
  | nil => simp [dropTrailingWS, hc]
  | cons a xs ih => simp [dropTrailingWS, ih, hc]

theorem dropTrailingWS_append_newline (xs : List Char) :
    dropTrailingWS (xs ++ [Char.ofNat 10]) = dropTrailingWS xs := by
  induction xs with
  | nil => simp [dropTrailingWS]
  | cons a xs ih => simp [dropTrailingWS, ih]

/-- Trimming the loop output removes exactly the final newline: the last
pushed line ends in a closing parenthesis followed by one newline. -/
theorem trim_end_concat_clock (s : String) :
    trim_end (s ++ "Clock Speed: N/A (requires vendor-specific APIs)\n")
      = s ++ "Clock Speed: N/A (requires vendor-specific APIs)" := by
  apply string_eq_of_data_eq
  have h1 : ("Clock Speed: N/A (requires vendor-specific APIs)\n" : String).data
      = ("Clock Speed: N/A (requires vendor-specific APIs" : String).data
        ++ [')'] ++ [Char.ofNat 10] := by rfl
  have h2 : ("Clock Speed: N/A (requires vendor-specific APIs)" : String).data
      = ("Clock Speed: N/A (requires vendor-specific APIs" : String).data ++ [')'] := by rfl
  show dropTrailingWS ((s ++ "Clock Speed: N/A (requires vendor-specific APIs)\n").data)
      = (s ++ "Clock Speed: N/A (requires vendor-specific APIs)").data
  rw [string_data_append, string_data_append, h1, h2, ← List.append_assoc,
    ← List.append_assoc, dropTrailingWS_append_newline, dropTrailingWS_append_nonWS]
  rfl

/-- On a non-empty adapter sequence, `get_gpu_info` renders exactly the head
adapter: the seen-set is empty at the first iteration, so the first adapter
is pushed and the loop breaks. -/
theorem get_gpu_info_cons (a : AdapterInfo) (rest : List AdapterInfo) :
    get_gpu_info (a :: rest) = adapterSummary a := by
  have h : get_gpu_info (a :: rest)
      = trim_end ((("" ++ ("GPU: " ++ a.name ++ " (" ++ a.backend ++ ")\n"))
          ++ ("VRAM: " ++ toString (a.max_storage_buffer_binding_size / (1024 * 1024)) ++ " MB\n"))
          ++ "Clock Speed: N/A (requires vendor-specific APIs)\n") := by
    simp [get_gpu_info, gpuLoop]
  rw [h, trim_end_concat_clock]
  apply string_eq_of_data_eq
  simp [adapterSummary, string_data_append]

/-- Exact-value model of an f32 division: division by a zero denominator
has no finite result (IEEE 0.0 / 0.0 is NaN), modelled as `none`; all other
quotients are modelled by their exact rational value. -/
def f32Div (a b : ℚ) : Option ℚ := if b = 0 then none else some (a / b)

/-- The `total_usage` computation of `update_system_info`: the sum of the
per-core usage percentages divided by the number of cores. -/
def total_usage (cpus : List ℚ) : Option ℚ :=
  f32Div cpus.sum (cpus.length : ℚ)

/-- Two-digit zero padding for the fractional part of a fixed-point
rendering. -/
def pad2 (n : ℕ) : String := if n < 10 then "0" ++ toString n else toString n

/-- Model of Rust fixed two-decimal float formatting applied to a finite
nonnegative exact value: round to the nearest hundredth and print the
integer and two-digit fractional parts. -/
def fmt2 (q : ℚ) : String :=
  toString (round (q * 100) / 100) ++ "." ++ pad2 (round (q * 100) % 100).toNat

/-- The string pushed into the `cpu_usage` field: fixed two-decimal
formatting of `total_usage`, where the f32 NaN arising from a zero core
count prints as NaN. -/
def cpu_usage_string (cpus : List ℚ) : String :=
  "CPU Usage: " ++ (match total_usage cpus with
    | some q => fmt2 q
    | none => "NaN") ++ "%"

/-- The string pushed into the `ram_info` field: each byte count divided by
1024 twice (integer division) and rendered in MB. -/
def ram_info_string (total used free : ℕ) : String :=
  "Total RAM: " ++ toString (total / 1024 / 1024) ++ " MB, Used: "
    ++ toString (used / 1024 / 1024) ++ " MB, Free: "
    ++ toString (free / 1024 / 1024) ++ " MB"

/-- The system counters as read after `refresh_all`: the per-core usage
percentages and the three memory counters in bytes. -/
structure SystemReadings where
  cpus : List ℚ
  total_memory : ℕ
  used_memory : ℕ
  free_memory : ℕ
deriving DecidableEq

/-- The three settable display fields of the slint `AppWindow`. -/
structure AppWindow where
  cpu_usage : String
  ram_info : String
  gpu_info : String
deriving DecidableEq

/-- Embedding of `update_system_info`: `refresh_all` re-reads the OS
counters (modelled by taking the post-refresh readings as the `sys`
argument), then the three display fields are set from them and from the
static `gpu_info` string. -/
def update_system_info (sys : SystemReadings) (ui : AppWindow) (gpu_info : String) : AppWindow :=
  { ui with
    cpu_usage := cpu_usage_string sys.cpus
    ram_info := ram_info_string sys.total_memory sys.used_memory sys.free_memory
    gpu_info := gpu_info }

/-- State of the shared mutex around `System` as seen by one caller at the
moment it calls `lock()`. -/
inductive LockState where
  | free
  | heldByOther
  | poisoned
deriving DecidableEq

/-- Embedding of `std::sync::Mutex::lock` as called at `system.lock()`: the
call blocks until the mutex is available and then returns Ok; it returns
Err exactly when the mutex is poisoned. -/
def mutexLockOk : LockState → Bool
  | .poisoned => false
  | _ => true

/-- Environment of one tick (or one manual trigger): the result of
`ui_handle.upgrade()`, the state of the `System` mutex, and the counters
`refresh_all` would read from the OS. -/
structure TickEnv where
  upgraded : Option AppWindow
  lock : LockState
  readings : SystemReadings
deriving DecidableEq

/-- Body of one iteration of the spawned sampler loop: if the weak handle
upgrades and the mutex lock returns Ok, refresh and push via
`update_system_info`; the result is the pushed window contents, or `none`
when the tick performed no refresh and no push.  The function is total:
no branch panics. -/
def tickBody (gpu_info : String) (e : TickEnv) : Option AppWindow :=
  match e.upgraded with
  | none => none
  | some ui =>
    if mutexLockOk e.lock then some (update_system_info e.readings ui gpu_info) else none

/-- Embedding of the `on_request_increase_value` callback: the closure body
installed for the manual trigger, translated separately from its own code
site (it clones the same `Arc` and the same `gpu_info` string). -/
def on_request_increase_value (gpu_info : String) (e : TickEnv) : Option AppWindow :=
  match e.upgraded with
  | none => none
  | some ui =>
    if mutexLockOk e.lock then some (update_system_info e.readings ui gpu_info) else none

/-- The sampler loop over a schedule of tick environments: one `tickBody`
outcome per tick, in order. -/
def runLoop (gpu_info : String) : List TickEnv → List (Option AppWindow)
  | [] => []
  | e :: es => tickBody gpu_info e :: runLoop gpu_info es

/-- The two states of the sampler state machine described by the spec. -/
inductive SamplerState where
  | Running
  | Stopped
deriving DecidableEq

/-- Transition of the sampler state on one tick: the `loop` body contains
neither `break` nor `return`, so a running sampler stays running. -/
def stepSampler : SamplerState → TickEnv → SamplerState
  | .Running, _ => .Running
  | .Stopped, _ => .Stopped

/-- Sampler state after processing a schedule of ticks, starting from the
initial `Running` state. -/
def samplerAfter (envs : List TickEnv) : SamplerState :=
  envs.foldl stepSampler .Running

theorem samplerAfter_eq_running (envs : List TickEnv) :
    samplerAfter envs = SamplerState.Running := by
  have h : ∀ l : List TickEnv, List.foldl stepSampler SamplerState.Running l
      = SamplerState.Running := by
    intro l
    induction l with
    | nil => rfl
    | cons e es ih => simpa [stepSampler] using ih
  exact h envs

/-- Phase of one caller of the mutex-guarded refresh: outside the critical
section, or holding the mutex while running `update_system_info`. -/
inductive Phase where
  | outside
  | refreshing
deriving DecidableEq

/-- Joint state of the two callers of the mutex-guarded refresh: the
spawned timer task and the manual-trigger callback. -/
structure ConcState where
  timerPhase : Phase
  manualPhase : Phase
deriving DecidableEq

/-- Interleaving semantics of the two callers: a caller enters its critical
section (acquiring the `Mutex` and running the refresh) only when the other
caller does not hold the mutex, and leaves it when the guard is dropped. -/
inductive ConcStep : ConcState → ConcState → Prop
  | timerEnter (s : ConcState) : s.timerPhase = Phase.outside →
      s.manualPhase ≠ Phase.refreshing → ConcStep s { s with timerPhase := Phase.refreshing }
  | timerExit (s : ConcState) : s.timerPhase = Phase.refreshing →
      ConcStep s { s with timerPhase := Phase.outside }
  | manualEnter (s : ConcState) : s.manualPhase = Phase.outside →
      s.timerPhase ≠ Phase.refreshing → ConcStep s { s with manualPhase := Phase.refreshing }
  | manualExit (s : ConcState) : s.manualPhase = Phase.refreshing →
      ConcStep s { s with manualPhase := Phase.outside }

/-- Initial joint state: both callers outside their critical sections. -/
def initConc : ConcState := ⟨Phase.outside, Phase.outside⟩

/-- A joint state is reachable when a finite interleaving of steps leads to
it from the initial state. -/
def ReachableConc (s : ConcState) : Prop := Relation.ReflTransGen ConcStep initConc s

/-- C1: on every tick on which resolving the weak UI handle fails, the tick
performs no refresh and no push, the loop is not stopped and keeps
processing the remaining schedule, and the sampler state machine never
reaches a terminal state (the tick body is a total function, so no tick
raises or crashes). -/
theorem failed_upgrade_tick_is_silent (g : String) (lk : LockState) (r : SystemReadings)
    (es envs : List TickEnv) :
    tickBody g ⟨none, lk, r⟩ = none
    ∧ runLoop g (⟨none, lk, r⟩ :: es) = none :: runLoop g es
    ∧ samplerAfter envs = SamplerState.Running := by
  refine ⟨rfl, ?_, samplerAfter_eq_running envs⟩
  simp [runLoop, tickBody]

/-- C2: for every non-empty per-core usage sequence the computed CPU usage
is the sum of the values divided by their count, and for the cores
10.0, 20.0, 30.0 the pushed display string is exactly CPU Usage: 20.00%. -/
theorem cpu_average_and_format (c : ℚ) (cs : List ℚ) (t u f : ℕ) (ui : AppWindow) (g : String) :
    total_usage (c :: cs) = some ((c :: cs).sum / ((c :: cs).length : ℚ))
    ∧ (update_system_info ⟨[10, 20, 30], t, u, f⟩ ui g).cpu_usage = "CPU Usage: 20.00%" := by
  constructor
  · simp [total_usage, f32Div, Nat.cast_add_one_ne_zero]
  · show cpu_usage_string [10, 20, 30] = _
    have h60 : total_usage [10, 20, 30] = some 20 := by
      norm_num [total_usage, f32Div]
    have h20 : ((20 : ℚ) * 100) = 2000 := by norm_num
    have hf : fmt2 20 = "20.00" := by
      unfold fmt2
      rw [h20, round_ofNat 2000]
      decide
    simp [cpu_usage_string, h60, hf]
    decide

/-- C3: evaluation of the code at the failing input.  When the provider
reports no cores, `total_usage` is a division with zero denominator (f32
NaN), not the defensible default the specification requires, and the
pushed string is CPU Usage: NaN% rather than a formatted number. -/
theorem empty_core_list_divides_by_zero :
    total_usage [] = none ∧ cpu_usage_string [] = "CPU Usage: NaN%" := by
  constructor <;> decide

/-- C4: every displayed MB value is the byte value under integer division
by 1,048,576 (the code divides by 1024 twice), and the given 16 GiB triple
formats exactly as stated. -/
theorem ram_mb_integer_division (cs : List ℚ) (t u f : ℕ) (ui : AppWindow) (g : String) :
    (update_system_info ⟨cs, t, u, f⟩ ui g).ram_info
      = "Total RAM: " ++ toString (t / 1048576) ++ " MB, Used: "
        ++ toString (u / 1048576) ++ " MB, Free: " ++ toString (f / 1048576) ++ " MB"
    ∧ (update_system_info ⟨cs, 16384 * 1048576, 8192 * 1048576, 8192 * 1048576⟩ ui g).ram_info
      = "Total RAM: 16384 MB, Used: 8192 MB, Free: 8192 MB" := by
  constructor
  · show ram_info_string t u f = _
    unfold ram_info_string
    norm_num [Nat.div_div_eq_div_mul]
  · show ram_info_string (16384 * 1048576) (8192 * 1048576) (8192 * 1048576) = _
    decide

/-- C5: the adapter reduction renders exactly the first adapter of the
sequence whose device identity has not appeared earlier (enumeration stops
there, so the output depends on no later adapter), and the empty sequence
yields the literal fallback string; determinism holds because the
reduction is a function of the ordered sequence. -/
theorem adapter_reduction_matches_first_novel (l : List AdapterInfo) :
    get_gpu_info l = (match firstNovel l [] with
      | none => "No GPU adapters found"
      | some a => adapterSummary a) := by
  cases l with
  | nil => rfl
  | cons a rest => simp [firstNovel, get_gpu_info_cons]

/-- C6 counterexample: a tick on which the handle resolves and the mutex is
merely held by the other caller (lock contention, not poisoning) is not
skipped — `std::sync::Mutex::lock` blocks until the mutex is free and the
refresh-and-push then proceeds, so the claim that such a tick is skipped is
false. -/
theorem contended_tick_not_skipped :
    tickBody "g" ⟨some ⟨"", "", ""⟩, LockState.heldByOther, ⟨[], 0, 0, 0⟩⟩ ≠ none := by
  decide

/-- C6 amended: on a tick on which the handle resolves, the tick is skipped
silently exactly when the mutex is poisoned (the Err branch of `lock()` is
ignored, nothing is propagated to the UI); under contention the blocking
acquisition waits and the refresh-and-push proceeds. -/
theorem resolved_tick_skips_only_on_poison (g : String) (ui : AppWindow) (r : SystemReadings) :
    tickBody g ⟨some ui, LockState.poisoned, r⟩ = none
    ∧ tickBody g ⟨some ui, LockState.heldByOther, r⟩ = some (update_system_info r ui g)
    ∧ tickBody g ⟨some ui, LockState.free, r⟩ = some (update_system_info r ui g) :=
  ⟨rfl, rfl, rfl⟩

/-- C7: the manual-trigger callback performs exactly the same
resolve-then-lock-then-refresh-then-push computation as one tick of the
sampler loop: for every handle/lock/counter environment and the same
static adapter summary string, the two bodies produce the same outcome. -/
theorem manual_trigger_equals_tick (g : String) (e : TickEnv) :
    on_request_increase_value g e = tickBody g e := rfl

/-- C8: in every reachable interleaving of the timer task and the
manual-trigger callback, the two callers are never inside the
mutex-guarded refresh at the same time: at most one refresh-and-render
executes at a time per shared provider state. -/
theorem refresh_mutual_exclusion (s : ConcState) (h : ReachableConc s) :
    ¬(s.timerPhase = Phase.refreshing ∧ s.manualPhase = Phase.refreshing) := by
  induction h with
  | refl => simp [initConc]
  | tail _ hstep ih =>
    cases hstep with
    | timerEnter h1 h2 => intro hc; exact h2 hc.2
    | timerExit h1 => intro hc; simp at hc
    | manualEnter h1 h2 => intro hc; exact h2 hc.1
    | manualExit h1 => intro hc; simp at hc

/-- Witness for C8: the state with the timer refreshing and the manual
caller outside is reachable in one step, and the theorem applies to it. -/
theorem refresh_mutual_exclusion_witness :
    ¬((ConcState.mk Phase.refreshing Phase.outside).timerPhase = Phase.refreshing
      ∧ (ConcState.mk Phase.refreshing Phase.outside).manualPhase = Phase.refreshing) :=
  refresh_mutual_exclusion ⟨Phase.refreshing, Phase.outside⟩
    (Relation.ReflTransGen.single (ConcStep.timerEnter initConc rfl (by decide)))

/-- C9: for every non-empty adapter sequence the output is exactly three
lines — the GPU name with its backend label, the VRAM line whose MB value
is the buffer-binding size limit under integer division by 1,048,576, and
the literal clock-speed placeholder — with the trailing newline trimmed. -/
theorem adapter_summary_three_lines (a : AdapterInfo) (rest : List AdapterInfo) :
    get_gpu_info (a :: rest)
      = "GPU: " ++ a.name ++ " (" ++ a.backend ++ ")" ++ "\n"
        ++ ("VRAM: " ++ toString (a.max_storage_buffer_binding_size / 1048576) ++ " MB") ++ "\n"
        ++ "Clock Speed: N/A (requires vendor-specific APIs)" := by
  rw [get_gpu_info_cons]
  apply string_eq_of_data_eq
  have h : a.max_storage_buffer_binding_size / (1024 * 1024)
      = a.max_storage_buffer_binding_size / 1048576 := by norm_num
  have h1 : (")\n" : String).data = (")" : String).data ++ ("\n" : String).data := rfl
  have h2 : (" MB\n" : String).data = (" MB" : String).data ++ ("\n" : String).data := rfl
  simp [adapterSummary, string_data_append, h, h1, h2, List.append_assoc]

/-- C10: for every non-empty adapter sequence the reduction selects exactly
the head of the sequence — the seen-identity set is empty when the first
adapter is examined and the loop breaks immediately after selecting it —
so the output never depends on the adapters after the head. -/
theorem first_adapter_always_selected (a : AdapterInfo) (rest1 rest2 : List AdapterInfo) :
    get_gpu_info (a :: rest1) = adapterSummary a
    ∧ get_gpu_info (a :: rest1) = get_gpu_info (a :: rest2) := by
  rw [get_gpu_info_cons, get_gpu_info_cons]
  exact ⟨rfl, rfl⟩

end SystemInfo
